import Mathlib

/-
  Shallow embedding of the hybrid-collection creation pipeline of
  src/core/src/server/delivery/hybrid_request/CreateHybridCollectionRequest.cpp
  (milvus::server::CreateHybridCollectionRequest).

  External collaborators (collection-name validator, JSON parser, storage
  engine) are passed in as function parameters, mirroring the spec's
  "external collaborator" contracts.  Parameter documents are modelled as
  flat key/value association lists, which covers every document shape the
  spec recognises (index document, field-parameter document, request-level
  extra-parameter document - all flat, section 6 of the spec).
-/

set_option linter.unusedVariables false

/-- A scalar JSON value, as stored in the flat parameter documents. -/
inductive JScalar where
  | jnull
  | jbool (b : Bool)
  | jint (n : Int)
  | jstr (s : String)
deriving DecidableEq

/-- A flat JSON object: association list of key/scalar pairs. -/
abbrev JDoc := List (String × JScalar)

/-- A `milvus::json` value held by the request: either the default-constructed
null document or a parsed flat object. -/
inductive JVal where
  | null
  | obj (d : JDoc)
deriving DecidableEq

/-- `json::contains`-style lookup: objects look up the key, every other
value has no members (nlohmann `contains` is false on non-objects). -/
def jget : JVal → String → Option JScalar
  | JVal.obj d, k => d.lookup k
  | JVal.null, _ => none

/-- Serialisation of a scalar value, as `json::dump` renders it. -/
def dumpScalar : JScalar → String
  | JScalar.jnull => "null"
  | JScalar.jbool true => "true"
  | JScalar.jbool false => "false"
  | JScalar.jint n => toString n
  | JScalar.jstr s => "\"" ++ s ++ "\""

/-- Serialisation of the entries of a flat object (string escaping elided:
the embedding only needs `dump` as a function of the document). -/
def dumpEntries : JDoc → String
  | [] => ""
  | [(k, v)] => "\"" ++ k ++ "\":" ++ dumpScalar v
  | (k, v) :: rest => "\"" ++ k ++ "\":" ++ dumpScalar v ++ "," ++ dumpEntries rest

/-- `json::dump` for a flat object. -/
def dumpDoc (d : JDoc) : String := "\x7b" ++ dumpEntries d ++ "\x7d"

/-- `get<uint16_t>()` on a json value: numbers (and booleans) convert with
unsigned wraparound, every other type raises a type error that the request's
blanket catch turns into SERVER_UNEXPECTED_ERROR. -/
def getU16 : JScalar → Except String Nat
  | JScalar.jint n => Except.ok ((n % 65536).toNat)
  | JScalar.jbool b => Except.ok (if b then 1 else 0)
  | _ => Except.error "type error 302: type must be number"

/-- `get<int64_t>()` on a json value, same conversion rules as `getU16`. -/
def getI64 : JScalar → Except String Int
  | JScalar.jint n => Except.ok n
  | JScalar.jbool b => Except.ok (if b then 1 else 0)
  | _ => Except.error "type error 302: type must be number"

/-- Implicit conversion json -> std::string: only string values convert,
anything else raises a type error. -/
def asString : JScalar → Except String String
  | JScalar.jstr s => Except.ok s
  | _ => Except.error "type error 302: type must be string"

/-- Modelled from the spec: the field data-type enumeration
(`engine::meta::hybrid::DataType`, declared outside the visible source);
the spec gives `enum{SCALAR_*, FLOAT_VECTOR, BINARY_VECTOR, ...}`. -/
inductive DataType where
  | BOOL
  | INT8
  | INT16
  | INT32
  | INT64
  | FLOAT
  | DOUBLE
  | STRING
  | FLOAT_VECTOR
  | BINARY_VECTOR
deriving DecidableEq

/-- Modelled from the spec: the `(int32_t)` value of a data-type enumerator
(the concrete numbers live outside the visible source; only injectivity of
the cast matters to the claims). -/
def dataTypeCode : DataType → Int
  | DataType.BOOL => 1
  | DataType.INT8 => 2
  | DataType.INT16 => 3
  | DataType.INT32 => 4
  | DataType.INT64 => 5
  | DataType.FLOAT => 10
  | DataType.DOUBLE => 11
  | DataType.STRING => 20
  | DataType.FLOAT_VECTOR => 100
  | DataType.BINARY_VECTOR => 101

/-- The vector-type test of source lines 91-92. -/
def isVector (dt : DataType) : Bool :=
  dt = DataType.FLOAT_VECTOR || dt = DataType.BINARY_VECTOR

/-- Modelled from the spec: caller-facing status code declared outside the
visible source; the catch-all "unexpected" error code (nonzero). -/
def SERVER_UNEXPECTED_ERROR : Int := 1

/-- Modelled from the spec: the invalid-collection-name status code
declared outside the visible source (nonzero, distinct from the others). -/
def SERVER_INVALID_COLLECTION_NAME : Int := 2

/-- Modelled from the spec: the engine's already-exists conflict code
declared outside the visible source (nonzero, distinct from the others). -/
def DB_ALREADY_EXIST : Int := 3

/-- A `milvus::Status`: an integer code (0 = success) and a message. -/
structure Status where
  code : Int := 0
  message : String := ""
deriving DecidableEq

/-- `Status::OK()`. -/
def Status.OK : Status := {}

/-- Modelled from the spec: the fixed string-to-code metric table
`milvus::engine::s_map_metric_type` (declared outside the visible source;
representative entries, "L2" present, "BOGUS" absent). -/
def s_map_metric_type : List (String × Int) :=
  [("L2", 1), ("IP", 2), ("HAMMING", 3), ("JACCARD", 4), ("TANIMOTO", 5)]

/-- Modelled from the spec: the fixed string-to-code engine/index table
`milvus::engine::s_map_engine_type` (declared outside the visible source;
representative entries, "IVF_FLAT" present, "BOGUS" absent). -/
def s_map_engine_type : List (String × Int) :=
  [("FLAT", 1), ("IVF_FLAT", 2), ("IVF_SQ8", 3), ("NSG", 4), ("HNSW", 5)]

/-- `std::map::at` over a string-to-code table: throws `std::out_of_range`
on a missing key. -/
def tableAt (t : List (String × Int)) (k : String) : Except String Int :=
  match t.lookup k with
  | some v => Except.ok v
  | none => Except.error "map::at: key not found"

/-- Modelled from the spec: a built per-field record
(`engine::meta::hybrid::FieldSchema`, declared outside the visible source);
fields follow spec section 3. -/
structure FieldSchema where
  collection_id_ : String := ""
  field_name_ : String := ""
  field_type_ : Int := 0
  index_name_ : Option String := none
  index_param_ : String := ""
  field_params_ : String := ""
deriving DecidableEq

/-- Modelled from the spec: the collection-wide record
(`engine::meta::CollectionSchema`, declared outside the visible source);
per spec section 3 the dimension defaults to 0 and the optional segment
size and metric/engine codes default to unset. -/
structure CollectionSchema where
  collection_id_ : String := ""
  dimension_ : Nat := 0
  index_file_size_ : Option Int := none
  metric_type_ : Option Int := none
  engine_type_ : Option Int := none
deriving DecidableEq

/-- The request object: the members of `CreateHybridCollectionRequest`.
Map members are embedded as association lists whose order is the iteration
order of the corresponding `std::unordered_map`. -/
structure CreateHybridCollectionRequest where
  collection_name_ : String
  field_types_ : List (String × DataType)
  field_index_params_ : List (String × JDoc)
  field_params_ : List (String × String)
  extra_params_ : JVal
deriving DecidableEq

/-- The constructor of source lines 30-40: its initialiser list stores the
collection name and the three field maps, but never stores the
`extra_params` argument, so the `extra_params_` member keeps its
default-constructed (null) value. -/
def CreateHybridCollectionRequest.create (collection_name : String)
    (field_types : List (String × DataType))
    (field_index_params : List (String × JDoc))
    (field_params : List (String × String))
    (extra_params : JVal) : CreateHybridCollectionRequest :=
  { collection_name_ := collection_name
    field_types_ := field_types
    field_index_params_ := field_index_params
    field_params_ := field_params
    extra_params_ := JVal.null }

/-- `map.at(name)` followed by reading the index document's `name` key
(source lines 82-84): absent key leaves the index name unset, a non-string
value makes the json-to-string assignment throw. -/
def indexNameOf (d : JDoc) : Except String (Option String) :=
  match d.lookup "name" with
  | none => Except.ok none
  | some (JScalar.jstr s) => Except.ok (some s)
  | some _ => Except.error "type error 302: type must be string"

/-- One iteration of the field loop (source lines 75-98): look up the
field's index document and parameter string (`unordered_map::at`, throwing
when absent), build its `FieldSchema`, and for vector-typed fields parse
the parameter string and pull a `dimension` value if present.  The loop
state is (built fields, running dimension, last vector document). -/
def processField (cn : String) (fip : List (String × JDoc))
    (fp : List (String × String)) (parse : String → Option JDoc)
    (st : List FieldSchema × Nat × JVal) (field : String × DataType) :
    Except String (List FieldSchema × Nat × JVal) :=
  match fip.lookup field.1 with
  | none => Except.error "unordered_map::at: key not found"
  | some index_params =>
    match indexNameOf index_params with
    | Except.error e => Except.error e
    | Except.ok index_name =>
      match fp.lookup field.1 with
      | none => Except.error "unordered_map::at: key not found"
      | some field_param =>
        let schema : FieldSchema :=
          { collection_id_ := cn
            field_name_ := field.1
            field_type_ := dataTypeCode field.2
            index_name_ := index_name
            index_param_ := dumpDoc index_params
            field_params_ := field_param }
        if isVector field.2 then
          match parse field_param with
          | none => Except.error "json parse error"
          | some doc =>
            match doc.lookup "dimension" with
            | none => Except.ok (st.1 ++ [schema], st.2.1, JVal.obj doc)
            | some v =>
              match getU16 v with
              | Except.error e => Except.error e
              | Except.ok n => Except.ok (st.1 ++ [schema], n, JVal.obj doc)
        else
          Except.ok (st.1 ++ [schema], st.2.1, st.2.2)

/-- The whole field loop of source lines 73-98, folded over the iteration
order of `field_types_`. -/
def buildFields (cn : String) (fip : List (String × JDoc))
    (fp : List (String × String)) (parse : String → Option JDoc) :
    List (String × DataType) → (List FieldSchema × Nat × JVal) →
    Except String (List FieldSchema × Nat × JVal)
  | [], st => Except.ok st
  | f :: rest, st =>
    match processField cn fip fp parse st f with
    | Except.error e => Except.error e
    | Except.ok st' => buildFields cn fip fp parse rest st'

/-- Source lines 102-104: copy an optional `segment_size` key of the
extra-parameter member into `index_file_size_`. -/
def applySegmentSize (extra : JVal) (ci : CollectionSchema) :
    Except String CollectionSchema :=
  match jget extra "segment_size" with
  | none => Except.ok ci
  | some v =>
    match getI64 v with
    | Except.error e => Except.error e
    | Except.ok n => Except.ok { ci with index_file_size_ := some n }

/-- Source lines 106-109: resolve an optional `metric_type` string of the
last vector document through the fixed metric table (`map::at`). -/
def applyMetricType (vp : JVal) (ci : CollectionSchema) :
    Except String CollectionSchema :=
  match jget vp "metric_type" with
  | none => Except.ok ci
  | some v =>
    match asString v with
    | Except.error e => Except.error e
    | Except.ok s =>
      match tableAt s_map_metric_type s with
      | Except.error e => Except.error e
      | Except.ok c => Except.ok { ci with metric_type_ := some c }

/-- Source lines 111-114: resolve an optional `index_type` string of the
last vector document through the fixed engine table (`map::at`). -/
def applyEngineType (vp : JVal) (ci : CollectionSchema) :
    Except String CollectionSchema :=
  match jget vp "index_type" with
  | none => Except.ok ci
  | some v =>
    match asString v with
    | Except.error e => Except.error e
    | Except.ok s =>
      match tableAt s_map_engine_type s with
      | Except.error e => Except.error e
      | Except.ok c => Except.ok { ci with engine_type_ := some c }

/-- The body of the `try` block up to (excluding) the engine call, source
lines 58-114: validate the name (early `.inl` return on failure), run the
field loop, then assemble the `CollectionSchema`.  An `Except.error` is an
uncaught C++ exception, handled by the catch of line 127. -/
def runPipeline (validator : String → Status) (parse : String → Option JDoc)
    (req : CreateHybridCollectionRequest) :
    Except String (Status ⊕ (CollectionSchema × List FieldSchema)) :=
  let status := validator req.collection_name_
  if status.code = 0 then
    match buildFields req.collection_name_ req.field_index_params_
        req.field_params_ parse req.field_types_ ([], 0, JVal.null) with
    | Except.error e => Except.error e
    | Except.ok (fields, dimension, vector_param) =>
      match applySegmentSize req.extra_params_
          { collection_id_ := req.collection_name_, dimension_ := dimension } with
      | Except.error e => Except.error e
      | Except.ok ci1 =>
        match applyMetricType vector_param ci1 with
        | Except.error e => Except.error e
        | Except.ok ci2 =>
          match applyEngineType vector_param ci2 with
          | Except.error e => Except.error e
          | Except.ok ci3 => Except.ok (Sum.inr (ci3, fields))
  else
    Except.ok (Sum.inl status)

/-- Source lines 117-131: result mapping of the engine's status - success
becomes `Status::OK()`, an already-exists conflict is remapped to the
invalid-collection-name code carrying the engine's message, any other
failure is returned unchanged. -/
def mapEngineStatus (s : Status) : Status :=
  if s.code = 0 then Status.OK
  else if s.code = DB_ALREADY_EXIST then
    { code := SERVER_INVALID_COLLECTION_NAME, message := s.message }
  else s

/-- The observable outcome of `OnExecute`: the returned status plus the
list of calls made to the storage engine (empty or a single call). -/
structure ExecResult where
  status : Status
  engineCalls : List (CollectionSchema × List FieldSchema)
deriving DecidableEq

/-- `OnExecute` (source lines 53-132): run the pipeline; a thrown exception
is caught and wrapped as SERVER_UNEXPECTED_ERROR with the exception text, a
validator failure is returned as-is with no engine call, and otherwise the
engine is called exactly once and its status mapped. -/
def onExecute (validator : String → Status) (parse : String → Option JDoc)
    (engine : CollectionSchema → List FieldSchema → Status)
    (req : CreateHybridCollectionRequest) : ExecResult :=
  match runPipeline validator parse req with
  | Except.error msg =>
    { status := { code := SERVER_UNEXPECTED_ERROR, message := msg }
      engineCalls := [] }
  | Except.ok (Sum.inl s) => { status := s, engineCalls := [] }
  | Except.ok (Sum.inr (ci, fields)) =>
    { status := mapEngineStatus (engine ci fields)
      engineCalls := [(ci, fields)] }


/-- A well-typed `name` entry: absent, or a string (the only shape the
json-to-string assignment of source line 83 accepts). -/
def nameValOk (d : JDoc) : Bool :=
  match d.lookup "name" with
  | none => true
  | some (JScalar.jstr _) => true
  | some _ => false

/-- A well-typed `dimension` entry: absent, or a value `get<uint16_t>`
accepts (number or boolean). -/
def dimValOk (d : JDoc) : Bool :=
  match d.lookup "dimension" with
  | none => true
  | some (JScalar.jint _) => true
  | some (JScalar.jbool _) => true
  | some _ => false

/-- All lookups and conversions the field loop performs on one field are
well-defined: the field name has entries in both maps, the index
document's `name` value (if any) is a string, and for vector fields the
parameter string parses to a document whose `dimension` value (if any) is
numeric. -/
def fieldCfgOk (fip : List (String × JDoc)) (fp : List (String × String))
    (parse : String → Option JDoc) (f : String × DataType) : Bool :=
  (match fip.lookup f.1 with
   | some d => nameValOk d
   | none => false) &&
  (match fp.lookup f.1 with
   | some s =>
     !(isVector f.2) ||
       (match parse s with
        | some doc => dimValOk doc
        | none => false)
   | none => false)

/-- Follows the spec's words: the index name is the index document's
`name` value when that key is present (and a string), otherwise unset. -/
def specIndexName (d : JDoc) : Option String :=
  match d.lookup "name" with
  | some (JScalar.jstr s) => some s
  | _ => none

/-- Follows the spec's words (section 4.2 / P1): the `FieldSchema` the
builder must emit for one field - the field's own name and type code, the
index name taken from the index document's `name` key when present, the
serialised index document, and the raw parameter string. -/
def specFieldSchema (cn : String) (fip : List (String × JDoc))
    (fp : List (String × String)) (f : String × DataType) : FieldSchema :=
  let d := (fip.lookup f.1).getD []
  { collection_id_ := cn
    field_name_ := f.1
    field_type_ := dataTypeCode f.2
    index_name_ := specIndexName d
    index_param_ := dumpDoc d
    field_params_ := (fp.lookup f.1).getD "" }

/-! ### Basic facts about the pipeline stages -/

/-- A null extra-parameter member leaves the schema unchanged. -/
theorem applySegmentSize_null (ci : CollectionSchema) :
    applySegmentSize JVal.null ci = Except.ok ci := rfl

/-- A null vector document leaves the metric stage a no-op. -/
theorem applyMetricType_null (ci : CollectionSchema) :
    applyMetricType JVal.null ci = Except.ok ci := rfl

/-- A null vector document leaves the engine-type stage a no-op. -/
theorem applyEngineType_null (ci : CollectionSchema) :
    applyEngineType JVal.null ci = Except.ok ci := rfl

/-- A successful segment-size stage only (possibly) touches
`index_file_size_`. -/
theorem applySegmentSize_ok_shape (extra : JVal) (ci ci' : CollectionSchema)
    (h : applySegmentSize extra ci = Except.ok ci') :
    ci'.collection_id_ = ci.collection_id_ ∧ ci'.dimension_ = ci.dimension_ ∧
    ci'.metric_type_ = ci.metric_type_ ∧ ci'.engine_type_ = ci.engine_type_ := by
  unfold applySegmentSize at h
  split at h
  · cases h; exact ⟨rfl, rfl, rfl, rfl⟩
  · split at h
    · cases h
    · cases h; exact ⟨rfl, rfl, rfl, rfl⟩

/-- A successful `map::at` over a code table means the key is present. -/
theorem tableAt_ok (t : List (String × Int)) (k : String) (c : Int)
    (h : tableAt t k = Except.ok c) : t.lookup k = some c := by
  unfold tableAt at h
  split at h
  next v hv => cases h; exact hv
  next => cases h

/-- Characterisation of a successful metric stage: all other fields are
preserved, and the metric code is either untouched (no key) or the table
image of the key's string value. -/
theorem applyMetricType_ok_shape (vp : JVal) (ci ci' : CollectionSchema)
    (h : applyMetricType vp ci = Except.ok ci') :
    ci'.collection_id_ = ci.collection_id_ ∧ ci'.dimension_ = ci.dimension_ ∧
    ci'.index_file_size_ = ci.index_file_size_ ∧ ci'.engine_type_ = ci.engine_type_ ∧
    ((jget vp "metric_type" = none ∧ ci'.metric_type_ = ci.metric_type_) ∨
     (∃ str c, jget vp "metric_type" = some (JScalar.jstr str) ∧
        s_map_metric_type.lookup str = some c ∧ ci'.metric_type_ = some c)) := by
  unfold applyMetricType at h
  split at h
  next hj => cases h; exact ⟨rfl, rfl, rfl, rfl, Or.inl ⟨hj, rfl⟩⟩
  next v hj =>
    split at h
    next => cases h
    next str hs =>
      have hv : v = JScalar.jstr str := by
        cases v <;> simp [asString] at hs <;> simp [hs]
      split at h
      next => cases h
      next c ht =>
        cases h
        exact ⟨rfl, rfl, rfl, rfl, Or.inr ⟨str, c, hv ▸ hj, tableAt_ok _ _ _ ht, rfl⟩⟩

/-- Characterisation of a successful engine-type stage, symmetric to the
metric stage. -/
theorem applyEngineType_ok_shape (vp : JVal) (ci ci' : CollectionSchema)
    (h : applyEngineType vp ci = Except.ok ci') :
    ci'.collection_id_ = ci.collection_id_ ∧ ci'.dimension_ = ci.dimension_ ∧
    ci'.index_file_size_ = ci.index_file_size_ ∧ ci'.metric_type_ = ci.metric_type_ ∧
    ((jget vp "index_type" = none ∧ ci'.engine_type_ = ci.engine_type_) ∨
     (∃ str c, jget vp "index_type" = some (JScalar.jstr str) ∧
        s_map_engine_type.lookup str = some c ∧ ci'.engine_type_ = some c)) := by
  unfold applyEngineType at h
  split at h
  next hj => cases h; exact ⟨rfl, rfl, rfl, rfl, Or.inl ⟨hj, rfl⟩⟩
  next v hj =>
    split at h
    next => cases h
    next str hs =>
      have hv : v = JScalar.jstr str := by
        cases v <;> simp [asString] at hs <;> simp [hs]
      split at h
      next => cases h
      next c ht =>
        cases h
        exact ⟨rfl, rfl, rfl, rfl, Or.inr ⟨str, c, hv ▸ hj, tableAt_ok _ _ _ ht, rfl⟩⟩

/-- An unknown metric string on the retained vector document makes the
metric stage throw. -/
theorem applyMetricType_error (vp : JVal) (ci : CollectionSchema) (str : String)
    (h1 : jget vp "metric_type" = some (JScalar.jstr str))
    (h2 : s_map_metric_type.lookup str = none) :
    ∃ e, applyMetricType vp ci = Except.error e := by
  refine ⟨"map::at: key not found", ?_⟩
  unfold applyMetricType
  rw [h1]
  simp [asString, tableAt, h2]

/-- An unknown index string on the retained vector document makes the
engine-type stage throw. -/
theorem applyEngineType_error (vp : JVal) (ci : CollectionSchema) (str : String)
    (h1 : jget vp "index_type" = some (JScalar.jstr str))
    (h2 : s_map_engine_type.lookup str = none) :
    ∃ e, applyEngineType vp ci = Except.error e := by
  refine ⟨"map::at: key not found", ?_⟩
  unfold applyEngineType
  rw [h1]
  simp [asString, tableAt, h2]

/-! ### Facts about the field loop -/

/-- Characterisation of one successful loop iteration: both map lookups
succeeded, the emitted schema is appended, and the dimension / retained
vector document evolve exactly as the vector branch dictates. -/
theorem processField_ok_shape (cn : String) (fip : List (String × JDoc))
    (fp : List (String × String)) (parse : String → Option JDoc)
    (st st' : List FieldSchema × Nat × JVal) (f : String × DataType)
    (h : processField cn fip fp parse st f = Except.ok st') :
    ∃ d iname s,
      fip.lookup f.1 = some d ∧ indexNameOf d = Except.ok iname ∧
      fp.lookup f.1 = some s ∧
      st'.1 = st.1 ++ [({ collection_id_ := cn, field_name_ := f.1,
                          field_type_ := dataTypeCode f.2, index_name_ := iname,
                          index_param_ := dumpDoc d,
                          field_params_ := s } : FieldSchema)] ∧
      ((isVector f.2 = false ∧ st'.2 = st.2) ∨
       (isVector f.2 = true ∧ ∃ doc, parse s = some doc ∧ st'.2.2 = JVal.obj doc ∧
         ((doc.lookup "dimension" = none ∧ st'.2.1 = st.2.1) ∨
          (∃ v n, doc.lookup "dimension" = some v ∧ getU16 v = Except.ok n ∧
            st'.2.1 = n)))) := by
  unfold processField at h
  split at h
  next => cases h
  next d hd =>
    split at h
    next => cases h
    next iname hi =>
      split at h
      next => cases h
      next s hs =>
        refine ⟨d, iname, s, hd, hi, hs, ?_⟩
        split at h
        next hvec =>
          split at h
          next => cases h
          next doc hp =>
            split at h
            next hdim =>
              cases h
              exact ⟨rfl, Or.inr ⟨hvec, doc, hp, rfl, Or.inl ⟨hdim, rfl⟩⟩⟩
            next v hdim =>
              split at h
              next => cases h
              next n hn =>
                cases h
                exact ⟨rfl, Or.inr ⟨hvec, doc, hp, rfl, Or.inr ⟨v, n, hdim, hn, rfl⟩⟩⟩
        next hvec =>
          cases h
          exact ⟨rfl, Or.inl ⟨by simpa using hvec, rfl⟩⟩

/-- With a well-typed `name` entry, reading the index name succeeds and
yields the spec-side index name. -/
theorem indexNameOf_ok_of (d : JDoc) (h : nameValOk d = true) :
    indexNameOf d = Except.ok (specIndexName d) := by
  unfold nameValOk at h
  unfold indexNameOf specIndexName
  cases hl : d.lookup "name" with
  | none => simp [hl]
  | some v =>
    rw [hl] at h
    cases v with
    | jstr s => simp [hl]
    | jnull => simp at h
    | jbool b => simp at h
    | jint n => simp at h

/-- With both lookups present and well-typed values, one loop iteration
succeeds and appends exactly the spec-side `FieldSchema`. -/
theorem processField_ok_of (cn : String) (fip : List (String × JDoc))
    (fp : List (String × String)) (parse : String → Option JDoc)
    (st : List FieldSchema × Nat × JVal) (f : String × DataType)
    (d : JDoc) (s : String)
    (hd : fip.lookup f.1 = some d) (hn : nameValOk d = true)
    (hs : fp.lookup f.1 = some s)
    (hv : isVector f.2 = true → ∃ doc, parse s = some doc ∧ dimValOk doc = true) :
    ∃ dim vp, processField cn fip fp parse st f =
      Except.ok (st.1 ++ [specFieldSchema cn fip fp f], dim, vp) := by
  have hspec : specFieldSchema cn fip fp f =
      { collection_id_ := cn
        field_name_ := f.1
        field_type_ := dataTypeCode f.2
        index_name_ := specIndexName d
        index_param_ := dumpDoc d
        field_params_ := s } := by
    unfold specFieldSchema
    rw [hd, hs]
    rfl
  by_cases hvec : isVector f.2 = true
  · obtain ⟨doc, hp, hdim⟩ := hv hvec
    unfold dimValOk at hdim
    cases hl : doc.lookup "dimension" with
    | none =>
      refine ⟨st.2.1, JVal.obj doc, ?_⟩
      simp [processField, hd, indexNameOf_ok_of d hn, hs, hvec, hp, hl, hspec]
    | some v =>
      rw [hl] at hdim
      cases v with
      | jint n =>
        refine ⟨(n % 65536).toNat, JVal.obj doc, ?_⟩
        simp [processField, hd, indexNameOf_ok_of d hn, hs, hvec, hp, hl, hspec, getU16]
      | jbool b =>
        refine ⟨if b then 1 else 0, JVal.obj doc, ?_⟩
        simp [processField, hd, indexNameOf_ok_of d hn, hs, hvec, hp, hl, hspec, getU16]
      | jnull => simp at hdim
      | jstr t => simp at hdim
  · refine ⟨st.2.1, st.2.2, ?_⟩
    simp only [Bool.not_eq_true] at hvec
    simp [processField, hd, indexNameOf_ok_of d hn, hs, hvec, hspec]

/-- The loop over a concatenation runs the two halves in sequence. -/
theorem buildFields_append (cn : String) (fip : List (String × JDoc))
    (fp : List (String × String)) (parse : String → Option JDoc)
    (xs ys : List (String × DataType)) :
    ∀ st, buildFields cn fip fp parse (xs ++ ys) st =
      match buildFields cn fip fp parse xs st with
      | Except.error e => Except.error e
      | Except.ok st' => buildFields cn fip fp parse ys st' := by
  induction xs with
  | nil => intro st; simp [buildFields]
  | cons f rest ih =>
    intro st
    simp only [List.cons_append, buildFields]
    cases h : processField cn fip fp parse st f with
    | error e => simp
    | ok st' => simp [ih st']

/-- Totality of the loop under well-typed configuration: every field in
both maps (with well-typed `name`/`dimension` values and parsable vector
documents) makes the loop succeed and emit exactly the spec-side schema
list, in input order. -/
theorem buildFields_ok_of_cfg (cn : String) (fip : List (String × JDoc))
    (fp : List (String × String)) (parse : String → Option JDoc) :
    ∀ (l : List (String × DataType)) (st : List FieldSchema × Nat × JVal),
      (∀ f ∈ l, fieldCfgOk fip fp parse f = true) →
      ∃ dim vp, buildFields cn fip fp parse l st =
        Except.ok (st.1 ++ l.map (specFieldSchema cn fip fp), dim, vp) := by
  intro l
  induction l with
  | nil => intro st h; exact ⟨st.2.1, st.2.2, by simp [buildFields]⟩
  | cons f rest ih =>
    intro st h
    have hf := h f (List.mem_cons_self f rest)
    unfold fieldCfgOk at hf
    rw [Bool.and_eq_true] at hf
    obtain ⟨h1, h2⟩ := hf
    cases hd : fip.lookup f.1 with
    | none => rw [hd] at h1; exact absurd h1 (by simp)
    | some d =>
      rw [hd] at h1
      cases hs : fp.lookup f.1 with
      | none => rw [hs] at h2; simp at h2
      | some s =>
        rw [hs] at h2
        have hv : isVector f.2 = true → ∃ doc, parse s = some doc ∧ dimValOk doc = true := by
          intro hvec
          rw [hvec] at h2
          simp only [Bool.not_true, Bool.false_or] at h2
          cases hp : parse s with
          | none => rw [hp] at h2; simp at h2
          | some doc => rw [hp] at h2; exact ⟨doc, rfl, h2⟩
        obtain ⟨dim1, vp1, hpf⟩ := processField_ok_of cn fip fp parse st f d s hd h1 hs hv
        obtain ⟨dim, vp, hrest⟩ := ih (st.1 ++ [specFieldSchema cn fip fp f], dim1, vp1)
          (fun g hg => h g (List.mem_cons_of_mem f hg))
        refine ⟨dim, vp, ?_⟩
        simp only [buildFields, hpf]
        rw [hrest]
        simp

/-- A field missing from either per-field map anywhere in the loop makes
the whole loop throw. -/
theorem buildFields_error_of_missing (cn : String) (fip : List (String × JDoc))
    (fp : List (String × String)) (parse : String → Option JDoc)
    (name : String) (dt : DataType) :
    ∀ (l : List (String × DataType)) st, (name, dt) ∈ l →
      (fip.lookup name = none ∨ fp.lookup name = none) →
      ∃ e, buildFields cn fip fp parse l st = Except.error e := by
  intro l
  induction l with
  | nil => intro st h _; simp at h
  | cons f rest ih =>
    intro st hmem hmiss
    cases hpf : processField cn fip fp parse st f with
    | error e => exact ⟨e, by simp [buildFields, hpf]⟩
    | ok st1 =>
      rcases List.mem_cons.mp hmem with heq | htail
      · obtain ⟨d, iname, s, hd, _, hs, _, _⟩ :=
          processField_ok_shape cn fip fp parse st st1 f hpf
        subst heq
        rcases hmiss with hm | hm
        · simp only [] at hd; rw [hm] at hd; cases hd
        · simp only [] at hs; rw [hm] at hs; cases hs
      · obtain ⟨e, he⟩ := ih st1 htail hmiss
        exact ⟨e, by simp [buildFields, hpf, he]⟩

/-- A vector field whose parameter string does not parse makes the whole
loop throw. -/
theorem buildFields_error_of_parse_fail (cn : String)
    (fip : List (String × JDoc)) (fp : List (String × String))
    (parse : String → Option JDoc) (name : String) (dt : DataType) (s : String) :
    ∀ (l : List (String × DataType)) st, (name, dt) ∈ l → isVector dt = true →
      fp.lookup name = some s → parse s = none →
      ∃ e, buildFields cn fip fp parse l st = Except.error e := by
  intro l
  induction l with
  | nil => intro st h _ _ _; simp at h
  | cons f rest ih =>
    intro st hmem hvec hlk hp
    cases hpf : processField cn fip fp parse st f with
    | error e => exact ⟨e, by simp [buildFields, hpf]⟩
    | ok st1 =>
      rcases List.mem_cons.mp hmem with heq | htail
      · obtain ⟨d, iname, s', hd, _, hs', _, hbr⟩ :=
          processField_ok_shape cn fip fp parse st st1 f hpf
        subst heq
        simp only [] at hs' hbr
        rw [hlk] at hs'
        cases hs'
        rcases hbr with ⟨hnv, _⟩ | ⟨_, doc, hpd, _⟩
        · rw [hvec] at hnv; cases hnv
        · rw [hp] at hpd; cases hpd
      · obtain ⟨e, he⟩ := ih st1 htail hvec hlk hp
        exact ⟨e, by simp [buildFields, hpf, he]⟩

/-- Over scalar-only fields the loop never touches the running dimension
or the retained vector document. -/
theorem buildFields_no_vector_state (cn : String) (fip : List (String × JDoc))
    (fp : List (String × String)) (parse : String → Option JDoc) :
    ∀ (l : List (String × DataType)) (st st' : List FieldSchema × Nat × JVal),
      (∀ f ∈ l, isVector f.2 = false) →
      buildFields cn fip fp parse l st = Except.ok st' →
      st'.2 = st.2 := by
  intro l
  induction l with
  | nil =>
    intro st st' _ h
    simp [buildFields] at h
    rw [← h]
  | cons f rest ih =>
    intro st st' hnv h
    cases hpf : processField cn fip fp parse st f with
    | error e => rw [buildFields, hpf] at h; cases h
    | ok st1 =>
      rw [buildFields, hpf] at h
      have h2 := ih st1 st' (fun g hg => hnv g (List.mem_cons_of_mem f hg)) h
      obtain ⟨_, _, _, _, _, _, _, hbr⟩ :=
        processField_ok_shape cn fip fp parse st st1 f hpf
      rcases hbr with ⟨_, hst⟩ | ⟨hvec, _⟩
      · rw [h2, hst]
      · rw [hnv f (List.mem_cons_self f rest)] at hvec; cases hvec

/-- When no vector field's parsed document carries a `dimension` key, the
running dimension survives the loop unchanged. -/
theorem buildFields_dim_unchanged (cn : String) (fip : List (String × JDoc))
    (fp : List (String × String)) (parse : String → Option JDoc) :
    ∀ (l : List (String × DataType)) (st st' : List FieldSchema × Nat × JVal),
      (∀ name dt s doc, (name, dt) ∈ l → isVector dt = true →
        fp.lookup name = some s → parse s = some doc →
        doc.lookup "dimension" = none) →
      buildFields cn fip fp parse l st = Except.ok st' →
      st'.2.1 = st.2.1 := by
  intro l
  induction l with
  | nil =>
    intro st st' _ h
    simp [buildFields] at h
    rw [← h]
  | cons f rest ih =>
    intro st st' hnd h
    cases hpf : processField cn fip fp parse st f with
    | error e => rw [buildFields, hpf] at h; cases h
    | ok st1 =>
      rw [buildFields, hpf] at h
      have h2 := ih st1 st'
        (fun name dt s doc hm => hnd name dt s doc (List.mem_cons_of_mem f hm)) h
      obtain ⟨_, _, s, _, _, hs, _, hbr⟩ :=
        processField_ok_shape cn fip fp parse st st1 f hpf
      rcases hbr with ⟨_, hst⟩ | ⟨hvec, doc, hp, _, hdim⟩
      · rw [h2, hst]
      · have hnone : doc.lookup "dimension" = none := by
          refine hnd f.1 f.2 s doc ?_ hvec hs hp
          simpa using List.mem_cons_self f rest
        rcases hdim with ⟨_, hsame⟩ | ⟨v, n, hv, _, _⟩
        · rw [h2, hsame]
        · rw [hnone] at hv; cases hv

/-- Every schema the loop appends carries the collection name as its
`collection_id_`. -/
theorem buildFields_collection_id (cn : String) (fip : List (String × JDoc))
    (fp : List (String × String)) (parse : String → Option JDoc) :
    ∀ (l : List (String × DataType)) (st st' : List FieldSchema × Nat × JVal),
      buildFields cn fip fp parse l st = Except.ok st' →
      ∀ g ∈ st'.1, g ∈ st.1 ∨ g.collection_id_ = cn := by
  intro l
  induction l with
  | nil =>
    intro st st' h g hg
    simp [buildFields] at h
    rw [← h] at hg
    exact Or.inl hg
  | cons f rest ih =>
    intro st st' h g hg
    cases hpf : processField cn fip fp parse st f with
    | error e => rw [buildFields, hpf] at h; cases h
    | ok st1 =>
      rw [buildFields, hpf] at h
      rcases ih st1 st' h g hg with hg1 | hgc
      · obtain ⟨d, iname, s, _, _, _, hfst, _⟩ :=
          processField_ok_shape cn fip fp parse st st1 f hpf
        rw [hfst] at hg1
        rcases List.mem_append.mp hg1 with hg0 | hgs
        · exact Or.inl hg0
        · right
          rw [List.mem_singleton.mp hgs]
      · exact Or.inr hgc

/-- A failing validator makes the pipeline return its status unchanged. -/
theorem runPipeline_validator_fail (validator : String → Status)
    (parse : String → Option JDoc) (req : CreateHybridCollectionRequest)
    (h : (validator req.collection_name_).code ≠ 0) :
    runPipeline validator parse req =
      Except.ok (Sum.inl (validator req.collection_name_)) := by
  unfold runPipeline
  simp [h]

/-- Decomposition of a pipeline run that reached the engine call: the
validator accepted, the loop succeeded with exactly the forwarded field
list, and the three schema stages ran in order. -/
theorem runPipeline_inr_shape (validator : String → Status)
    (parse : String → Option JDoc) (req : CreateHybridCollectionRequest)
    (ci : CollectionSchema) (fields : List FieldSchema)
    (h : runPipeline validator parse req = Except.ok (Sum.inr (ci, fields))) :
    (validator req.collection_name_).code = 0 ∧
    ∃ dim vp ci1 ci2,
      buildFields req.collection_name_ req.field_index_params_ req.field_params_
        parse req.field_types_ ([], 0, JVal.null) = Except.ok (fields, dim, vp) ∧
      applySegmentSize req.extra_params_
        { collection_id_ := req.collection_name_, dimension_ := dim } = Except.ok ci1 ∧
      applyMetricType vp ci1 = Except.ok ci2 ∧
      applyEngineType vp ci2 = Except.ok ci := by
  unfold runPipeline at h
  by_cases hv : (validator req.collection_name_).code = 0
  · simp only [hv, if_true, eq_self_iff_true] at h
    split at h
    next => cases h
    next fields' dim vp hb =>
      split at h
      next => cases h
      next ci1 h1 =>
        split at h
        next => cases h
        next ci2 h2 =>
          split at h
          next => cases h
          next ci3 h3 =>
            cases h
            exact ⟨hv, dim, vp, ci1, ci2, hb, h1, h2, h3⟩
  · simp only [hv, if_false, eq_self_iff_true] at h
    cases h

/-- Assembling a pipeline run from its pieces. -/
theorem runPipeline_inr_of (validator : String → Status)
    (parse : String → Option JDoc) (req : CreateHybridCollectionRequest)
    (fields : List FieldSchema) (dim : Nat) (vp : JVal)
    (ci1 ci2 ci3 : CollectionSchema)
    (hv : (validator req.collection_name_).code = 0)
    (hb : buildFields req.collection_name_ req.field_index_params_
      req.field_params_ parse req.field_types_ ([], 0, JVal.null) =
      Except.ok (fields, dim, vp))
    (h1 : applySegmentSize req.extra_params_
      { collection_id_ := req.collection_name_, dimension_ := dim } = Except.ok ci1)
    (h2 : applyMetricType vp ci1 = Except.ok ci2)
    (h3 : applyEngineType vp ci2 = Except.ok ci3) :
    runPipeline validator parse req = Except.ok (Sum.inr (ci3, fields)) := by
  unfold runPipeline
  simp [hv, hb, h1, h2, h3]

/-- A loop failure is a pipeline failure (validator permitting). -/
theorem runPipeline_error_of_buildFields (validator : String → Status)
    (parse : String → Option JDoc) (req : CreateHybridCollectionRequest)
    (e : String) (hv : (validator req.collection_name_).code = 0)
    (hb : buildFields req.collection_name_ req.field_index_params_
      req.field_params_ parse req.field_types_ ([], 0, JVal.null) =
      Except.error e) :
    runPipeline validator parse req = Except.error e := by
  unfold runPipeline
  simp [hv, hb]

/-- An unknown metric string on the retained vector document fails the
pipeline. -/
theorem runPipeline_error_of_bad_metric (validator : String → Status)
    (parse : String → Option JDoc) (req : CreateHybridCollectionRequest)
    (fields : List FieldSchema) (dim : Nat) (doc : JDoc) (str : String)
    (hv : (validator req.collection_name_).code = 0)
    (hb : buildFields req.collection_name_ req.field_index_params_
      req.field_params_ parse req.field_types_ ([], 0, JVal.null) =
      Except.ok (fields, dim, JVal.obj doc))
    (hm : doc.lookup "metric_type" = some (JScalar.jstr str))
    (ht : s_map_metric_type.lookup str = none) :
    ∃ e, runPipeline validator parse req = Except.error e := by
  cases h1 : applySegmentSize req.extra_params_
      { collection_id_ := req.collection_name_, dimension_ := dim } with
  | error e => exact ⟨e, by unfold runPipeline; simp [hv, hb, h1]⟩
  | ok ci1 =>
    obtain ⟨e, he⟩ :=
      applyMetricType_error (JVal.obj doc) ci1 str (by simp [jget, hm]) ht
    exact ⟨e, by unfold runPipeline; simp [hv, hb, h1, he]⟩

/-- An unknown index string on the retained vector document fails the
pipeline. -/
theorem runPipeline_error_of_bad_index (validator : String → Status)
    (parse : String → Option JDoc) (req : CreateHybridCollectionRequest)
    (fields : List FieldSchema) (dim : Nat) (doc : JDoc) (str : String)
    (hv : (validator req.collection_name_).code = 0)
    (hb : buildFields req.collection_name_ req.field_index_params_
      req.field_params_ parse req.field_types_ ([], 0, JVal.null) =
      Except.ok (fields, dim, JVal.obj doc))
    (hm : doc.lookup "index_type" = some (JScalar.jstr str))
    (ht : s_map_engine_type.lookup str = none) :
    ∃ e, runPipeline validator parse req = Except.error e := by
  cases h1 : applySegmentSize req.extra_params_
      { collection_id_ := req.collection_name_, dimension_ := dim } with
  | error e => exact ⟨e, by unfold runPipeline; simp [hv, hb, h1]⟩
  | ok ci1 =>
    cases h2 : applyMetricType (JVal.obj doc) ci1 with
    | error e => exact ⟨e, by unfold runPipeline; simp [hv, hb, h1, h2]⟩
    | ok ci2 =>
      obtain ⟨e, he⟩ :=
        applyEngineType_error (JVal.obj doc) ci2 str (by simp [jget, hm]) ht
      exact ⟨e, by unfold runPipeline; simp [hv, hb, h1, h2, he]⟩

/-- A pipeline exception surfaces through the catch as the unexpected
error, with no engine call. -/
theorem onExecute_of_error (validator : String → Status)
    (parse : String → Option JDoc)
    (engine : CollectionSchema → List FieldSchema → Status)
    (req : CreateHybridCollectionRequest) (e : String)
    (h : runPipeline validator parse req = Except.error e) :
    onExecute validator parse engine req =
      { status := { code := SERVER_UNEXPECTED_ERROR, message := e }
        engineCalls := [] } := by
  unfold onExecute
  rw [h]

/-- A pipeline run that reached the engine call produces exactly one
engine call and the mapped engine status. -/
theorem onExecute_of_inr (validator : String → Status)
    (parse : String → Option JDoc)
    (engine : CollectionSchema → List FieldSchema → Status)
    (req : CreateHybridCollectionRequest) (ci : CollectionSchema)
    (fields : List FieldSchema)
    (h : runPipeline validator parse req = Except.ok (Sum.inr (ci, fields))) :
    onExecute validator parse engine req =
      { status := mapEngineStatus (engine ci fields)
        engineCalls := [(ci, fields)] } := by
  unfold onExecute
  rw [h]

/-- An observed engine call pins down the pipeline outcome. -/
theorem onExecute_calls_inr (validator : String → Status)
    (parse : String → Option JDoc)
    (engine : CollectionSchema → List FieldSchema → Status)
    (req : CreateHybridCollectionRequest) (ci : CollectionSchema)
    (fields : List FieldSchema)
    (h : (onExecute validator parse engine req).engineCalls = [(ci, fields)]) :
    runPipeline validator parse req = Except.ok (Sum.inr (ci, fields)) := by
  unfold onExecute at h
  cases hr : runPipeline validator parse req with
  | error e => rw [hr] at h; simp at h
  | ok v =>
    cases v with
    | inl s => rw [hr] at h; simp at h
    | inr p =>
      obtain ⟨ci', fields'⟩ := p
      rw [hr] at h
      simp only [List.cons.injEq, Prod.mk.injEq, and_true] at h
      obtain ⟨h1, h2⟩ := h
      subst h1
      subst h2
      rfl

/-- The built collection schema carries the request's name and the loop's
final dimension. -/
theorem pipeline_schema_shape (validator : String → Status)
    (parse : String → Option JDoc) (req : CreateHybridCollectionRequest)
    (ci : CollectionSchema) (fields : List FieldSchema)
    (hr : runPipeline validator parse req = Except.ok (Sum.inr (ci, fields))) :
    ∃ dim vp,
      buildFields req.collection_name_ req.field_index_params_ req.field_params_
        parse req.field_types_ ([], 0, JVal.null) = Except.ok (fields, dim, vp) ∧
      ci.dimension_ = dim ∧ ci.collection_id_ = req.collection_name_ := by
  obtain ⟨hv, dim, vp, ci1, ci2, hb, h1, h2, h3⟩ :=
    runPipeline_inr_shape validator parse req ci fields hr
  obtain ⟨c1, d1, _, _⟩ := applySegmentSize_ok_shape _ _ _ h1
  obtain ⟨c2, d2, _, _, _⟩ := applyMetricType_ok_shape _ _ _ h2
  obtain ⟨c3, d3, _, _, _⟩ := applyEngineType_ok_shape _ _ _ h3
  exact ⟨dim, vp, hb, by rw [d3, d2, d1], by rw [c3, c2, c1]⟩

/-! ### The claims -/

/-- C8: for every request whose collection name fails the validator, the
call returns the validator's error unchanged and the storage engine is
never invoked (the validator short-circuits the pipeline). -/
theorem c8_validator_short_circuit (validator : String → Status)
    (parse : String → Option JDoc)
    (engine : CollectionSchema → List FieldSchema → Status)
    (req : CreateHybridCollectionRequest)
    (h : (validator req.collection_name_).code ≠ 0) :
    onExecute validator parse engine req =
      { status := validator req.collection_name_, engineCalls := [] } := by
  unfold onExecute
  rw [runPipeline_validator_fail validator parse req h]

/-- Witness for C8 at a concrete failing validator. -/
theorem c8_validator_short_circuit_witness :
    onExecute (fun _ => { code := 7, message := "invalid name" })
      (fun _ => none) (fun _ _ => Status.OK)
      (CreateHybridCollectionRequest.create "!bad!" [("f", DataType.INT64)]
        [("f", [])] [("f", "p")] JVal.null) =
      { status := { code := 7, message := "invalid name" }, engineCalls := [] } :=
  c8_validator_short_circuit _ _ _ _ (by decide)

/-- C3: for every request that reaches the engine call, an already-exists
conflict reported by the engine is returned as the invalid-collection-name
error carrying the engine's message text (not as an engine failure), and
every other engine failure is surfaced to the caller unchanged. -/
theorem c3_engine_conflict_remap (validator : String → Status)
    (parse : String → Option JDoc)
    (engine : CollectionSchema → List FieldSchema → Status)
    (req : CreateHybridCollectionRequest) (ci : CollectionSchema)
    (fields : List FieldSchema)
    (h : (onExecute validator parse engine req).engineCalls = [(ci, fields)]) :
    ((engine ci fields).code = DB_ALREADY_EXIST →
      (onExecute validator parse engine req).status =
        { code := SERVER_INVALID_COLLECTION_NAME
          message := (engine ci fields).message }) ∧
    ((engine ci fields).code ≠ DB_ALREADY_EXIST → (engine ci fields).code ≠ 0 →
      (onExecute validator parse engine req).status = engine ci fields) := by
  have hr := onExecute_calls_inr validator parse engine req ci fields h
  rw [onExecute_of_inr validator parse engine req ci fields hr]
  constructor
  · intro hcode
    simp [mapEngineStatus, hcode, DB_ALREADY_EXIST]
  · intro hne hnz
    simp [mapEngineStatus, hnz, hne]

/-- Witness for C3 at a concrete conflicting engine. -/
theorem c3_engine_conflict_remap_witness :
    (onExecute (fun _ => Status.OK) (fun _ => none)
      (fun _ _ => { code := DB_ALREADY_EXIST, message := "collection c3w exists" })
      (CreateHybridCollectionRequest.create "c3w" [] [] [] JVal.null)).status =
      { code := SERVER_INVALID_COLLECTION_NAME, message := "collection c3w exists" } :=
  (c3_engine_conflict_remap (fun _ => Status.OK) (fun _ => none)
      (fun _ _ => { code := DB_ALREADY_EXIST, message := "collection c3w exists" })
      (CreateHybridCollectionRequest.create "c3w" [] [] [] JVal.null)
      { collection_id_ := "c3w" } [] (by decide)).1 (by decide)

/-- C9 (implicit): every `FieldSchema` forwarded to the engine carries the
request's collection name as its `collection_id_`, whatever the field's
data type. -/
theorem c9_collection_id_invariant (validator : String → Status)
    (parse : String → Option JDoc)
    (engine : CollectionSchema → List FieldSchema → Status)
    (req : CreateHybridCollectionRequest) (ci : CollectionSchema)
    (fields : List FieldSchema)
    (h : (onExecute validator parse engine req).engineCalls = [(ci, fields)])
    (g : FieldSchema) (hg : g ∈ fields) :
    g.collection_id_ = req.collection_name_ := by
  have hr := onExecute_calls_inr validator parse engine req ci fields h
  obtain ⟨dim, vp, hb, _, _⟩ :=
    pipeline_schema_shape validator parse req ci fields hr
  rcases buildFields_collection_id req.collection_name_ req.field_index_params_
      req.field_params_ parse req.field_types_ ([], 0, JVal.null)
      (fields, dim, vp) hb g hg with h0 | hc
  · simp at h0
  · exact hc

/-- Witness for C9 at a concrete two-field request. -/
theorem c9_collection_id_invariant_witness :
    ({ collection_id_ := "c9w", field_name_ := "f", field_type_ := 5
       index_name_ := none, index_param_ := "\x7b\x7d"
       field_params_ := "p" } : FieldSchema).collection_id_ = "c9w" :=
  c9_collection_id_invariant (fun _ => Status.OK) (fun _ => none)
    (fun _ _ => Status.OK)
    (CreateHybridCollectionRequest.create "c9w" [("f", DataType.INT64)]
      [("f", [])] [("f", "p")] JVal.null)
    { collection_id_ := "c9w" }
    [{ collection_id_ := "c9w", field_name_ := "f", field_type_ := 5
       index_name_ := none, index_param_ := "\x7b\x7d"
       field_params_ := "p" }]
    (by decide) _ (by decide)

/-- C1 (code bug): the constructor never stores its `extra_params`
argument, so the member read at source lines 102-104 is always the
default-null document; a request created with `segment_size` 1024 in its
extra parameters reaches the engine with `index_file_size_` still unset,
and the request does not fail. -/
theorem c1_segment_size_never_propagated :
    (∀ (cn : String) (ft : List (String × DataType))
       (fip : List (String × JDoc)) (fp : List (String × String)) (ep : JVal),
      (CreateHybridCollectionRequest.create cn ft fip fp ep).extra_params_ =
        JVal.null) ∧
    ((onExecute (fun _ => Status.OK) (fun _ => none) (fun _ _ => Status.OK)
        (CreateHybridCollectionRequest.create "col" [] [] []
          (JVal.obj [("segment_size", JScalar.jint 1024)]))).engineCalls.map
        (fun c => c.1.index_file_size_) = [none]) ∧
    ((onExecute (fun _ => Status.OK) (fun _ => none) (fun _ _ => Status.OK)
        (CreateHybridCollectionRequest.create "col" [] [] []
          (JVal.obj [("segment_size", JScalar.jint 1024)]))).status =
      Status.OK) :=
  ⟨fun _ _ _ _ _ => rfl, by decide, by decide⟩

/-- C2 counterexample: a field name missing from the index-parameter map
does abort the call with the engine never invoked, but the surfaced error
is the catch-all unexpected error wrapping the raw lookup failure
(SERVER_UNEXPECTED_ERROR), not a dedicated missing-field-configuration
error. -/
theorem c2_counterexample :
    ((CreateHybridCollectionRequest.create "col" [("f", DataType.INT64)] []
        [("f", "x")] JVal.null).field_index_params_.lookup "f" = none) ∧
    ((onExecute (fun _ => Status.OK) (fun _ => none) (fun _ _ => Status.OK)
        (CreateHybridCollectionRequest.create "col" [("f", DataType.INT64)] []
          [("f", "x")] JVal.null)).status =
      { code := SERVER_UNEXPECTED_ERROR
        message := "unordered_map::at: key not found" }) ∧
    ((onExecute (fun _ => Status.OK) (fun _ => none) (fun _ _ => Status.OK)
        (CreateHybridCollectionRequest.create "col" [("f", DataType.INT64)] []
          [("f", "x")] JVal.null)).engineCalls = []) := by
  refine ⟨by decide, by decide, by decide⟩

/-- C2 as amended: if any field name of the type map is absent from either
per-field map, the call fails with the catch-all unexpected error
(SERVER_UNEXPECTED_ERROR, the uncaught lookup failure wrapped by the
blanket catch) and the engine is never invoked. -/
theorem c2_missing_config_amended (validator : String → Status)
    (parse : String → Option JDoc)
    (engine : CollectionSchema → List FieldSchema → Status)
    (req : CreateHybridCollectionRequest) (name : String) (dt : DataType)
    (hv : (validator req.collection_name_).code = 0)
    (hmem : (name, dt) ∈ req.field_types_)
    (hmiss : req.field_index_params_.lookup name = none ∨
             req.field_params_.lookup name = none) :
    (onExecute validator parse engine req).status.code = SERVER_UNEXPECTED_ERROR ∧
    (onExecute validator parse engine req).engineCalls = [] := by
  obtain ⟨e, he⟩ := buildFields_error_of_missing req.collection_name_
    req.field_index_params_ req.field_params_ parse name dt req.field_types_
    ([], 0, JVal.null) hmem hmiss
  have hp := runPipeline_error_of_buildFields validator parse req e hv he
  rw [onExecute_of_error validator parse engine req e hp]
  exact ⟨rfl, rfl⟩

/-- Witness for the amended C2 at a concrete request missing an
extra-parameter entry. -/
theorem c2_missing_config_amended_witness :
    (onExecute (fun _ => Status.OK) (fun _ => none) (fun _ _ => Status.OK)
      (CreateHybridCollectionRequest.create "c2w" [("g", DataType.FLOAT)]
        [("g", [])] [] JVal.null)).status.code = SERVER_UNEXPECTED_ERROR ∧
    (onExecute (fun _ => Status.OK) (fun _ => none) (fun _ _ => Status.OK)
      (CreateHybridCollectionRequest.create "c2w" [("g", DataType.FLOAT)]
        [("g", [])] [] JVal.null)).engineCalls = [] :=
  c2_missing_config_amended _ _ _ _ "g" DataType.FLOAT (by decide) (by decide)
    (Or.inr (by decide))

/-- C4 counterexample: a request containing a vector field whose document
carries the unknown metric string "BOGUS" does not fail at all when a
later-visited vector field overwrites the retained document - the call
succeeds and the engine is invoked. -/
theorem c4_counterexample :
    (s_map_metric_type.lookup "BOGUS" = none) ∧
    ((fun s => if s = "A"
        then some [("metric_type", JScalar.jstr "BOGUS"), ("dimension", JScalar.jint 4)]
        else if s = "B" then some [("metric_type", JScalar.jstr "L2")]
        else none) "A" =
      some [("metric_type", JScalar.jstr "BOGUS"), ("dimension", JScalar.jint 4)]) ∧
    (("a", DataType.FLOAT_VECTOR) ∈
      (CreateHybridCollectionRequest.create "col"
        [("a", DataType.FLOAT_VECTOR), ("b", DataType.FLOAT_VECTOR)]
        [("a", []), ("b", [])] [("a", "A"), ("b", "B")] JVal.null).field_types_) ∧
    ((onExecute (fun _ => Status.OK)
        (fun s => if s = "A"
          then some [("metric_type", JScalar.jstr "BOGUS"), ("dimension", JScalar.jint 4)]
          else if s = "B" then some [("metric_type", JScalar.jstr "L2")]
          else none)
        (fun _ _ => Status.OK)
        (CreateHybridCollectionRequest.create "col"
          [("a", DataType.FLOAT_VECTOR), ("b", DataType.FLOAT_VECTOR)]
          [("a", []), ("b", [])] [("a", "A"), ("b", "B")] JVal.null)).status =
      Status.OK) ∧
    ((onExecute (fun _ => Status.OK)
        (fun s => if s = "A"
          then some [("metric_type", JScalar.jstr "BOGUS"), ("dimension", JScalar.jint 4)]
          else if s = "B" then some [("metric_type", JScalar.jstr "L2")]
          else none)
        (fun _ _ => Status.OK)
        (CreateHybridCollectionRequest.create "col"
          [("a", DataType.FLOAT_VECTOR), ("b", DataType.FLOAT_VECTOR)]
          [("a", []), ("b", [])] [("a", "A"), ("b", "B")] JVal.null)).engineCalls.length
      = 1) := by
  exact ⟨by decide, by decide, by decide, by decide, by decide⟩

/-- C4 as amended: (a) a vector field anywhere in the request whose
parameter string does not parse fails the call with the catch-all
unexpected error before the engine is invoked; (b)/(c) an unknown
`metric_type` / `index_type` string is only checked on the document
retained after the loop (the last-visited vector field's), and then also
fails with the catch-all unexpected error before any engine call. -/
theorem c4_malformed_amended :
    (∀ (validator : String → Status) (parse : String → Option JDoc)
       (engine : CollectionSchema → List FieldSchema → Status)
       (req : CreateHybridCollectionRequest) (name : String) (dt : DataType)
       (s : String),
      (validator req.collection_name_).code = 0 →
      (name, dt) ∈ req.field_types_ → isVector dt = true →
      req.field_params_.lookup name = some s → parse s = none →
      (onExecute validator parse engine req).status.code = SERVER_UNEXPECTED_ERROR ∧
      (onExecute validator parse engine req).engineCalls = []) ∧
    (∀ (validator : String → Status) (parse : String → Option JDoc)
       (engine : CollectionSchema → List FieldSchema → Status)
       (req : CreateHybridCollectionRequest) (fields : List FieldSchema)
       (dim : Nat) (doc : JDoc) (str : String),
      (validator req.collection_name_).code = 0 →
      buildFields req.collection_name_ req.field_index_params_ req.field_params_
        parse req.field_types_ ([], 0, JVal.null) =
        Except.ok (fields, dim, JVal.obj doc) →
      doc.lookup "metric_type" = some (JScalar.jstr str) →
      s_map_metric_type.lookup str = none →
      (onExecute validator parse engine req).status.code = SERVER_UNEXPECTED_ERROR ∧
      (onExecute validator parse engine req).engineCalls = []) ∧
    (∀ (validator : String → Status) (parse : String → Option JDoc)
       (engine : CollectionSchema → List FieldSchema → Status)
       (req : CreateHybridCollectionRequest) (fields : List FieldSchema)
       (dim : Nat) (doc : JDoc) (str : String),
      (validator req.collection_name_).code = 0 →
      buildFields req.collection_name_ req.field_index_params_ req.field_params_
        parse req.field_types_ ([], 0, JVal.null) =
        Except.ok (fields, dim, JVal.obj doc) →
      doc.lookup "index_type" = some (JScalar.jstr str) →
      s_map_engine_type.lookup str = none →
      (onExecute validator parse engine req).status.code = SERVER_UNEXPECTED_ERROR ∧
      (onExecute validator parse engine req).engineCalls = []) := by
  refine ⟨?_, ?_, ?_⟩
  · intro validator parse engine req name dt s hv hmem hvec hlk hp
    obtain ⟨e, he⟩ := buildFields_error_of_parse_fail req.collection_name_
      req.field_index_params_ req.field_params_ parse name dt s
      req.field_types_ ([], 0, JVal.null) hmem hvec hlk hp
    have hpe := runPipeline_error_of_buildFields validator parse req e hv he
    rw [onExecute_of_error validator parse engine req e hpe]
    exact ⟨rfl, rfl⟩
  · intro validator parse engine req fields dim doc str hv hb hm ht
    obtain ⟨e, he⟩ :=
      runPipeline_error_of_bad_metric validator parse req fields dim doc str hv hb hm ht
    rw [onExecute_of_error validator parse engine req e he]
    exact ⟨rfl, rfl⟩
  · intro validator parse engine req fields dim doc str hv hb hm ht
    obtain ⟨e, he⟩ :=
      runPipeline_error_of_bad_index validator parse req fields dim doc str hv hb hm ht
    rw [onExecute_of_error validator parse engine req e he]
    exact ⟨rfl, rfl⟩

/-- Witness for the amended C4: an unparsable vector parameter string
fails the call with the unexpected error and no engine call. -/
theorem c4_malformed_amended_witness :
    (onExecute (fun _ => Status.OK) (fun _ => none) (fun _ _ => Status.OK)
      (CreateHybridCollectionRequest.create "c4w" [("v", DataType.FLOAT_VECTOR)]
        [("v", [])] [("v", "not json")] JVal.null)).status.code =
      SERVER_UNEXPECTED_ERROR ∧
    (onExecute (fun _ => Status.OK) (fun _ => none) (fun _ _ => Status.OK)
      (CreateHybridCollectionRequest.create "c4w" [("v", DataType.FLOAT_VECTOR)]
        [("v", [])] [("v", "not json")] JVal.null)).engineCalls = [] :=
  c4_malformed_amended.1 _ _ _ _ "v" DataType.FLOAT_VECTOR "not json"
    (by decide) (by decide) (by decide) (by decide) rfl

/-- C5 counterexample: every field name is present in both maps and the
single vector field's document parses, yet schema assembly fails (with
the catch-all unexpected error, no engine call) because the parsed
document's `dimension` value is a string and `get<uint16_t>` throws. -/
theorem c5_counterexample :
    ((CreateHybridCollectionRequest.create "col" [("v", DataType.FLOAT_VECTOR)]
        [("v", [])] [("v", "d")] JVal.null).field_index_params_.lookup "v" =
      some []) ∧
    ((CreateHybridCollectionRequest.create "col" [("v", DataType.FLOAT_VECTOR)]
        [("v", [])] [("v", "d")] JVal.null).field_params_.lookup "v" =
      some "d") ∧
    ((fun s => if s = "d" then some [("dimension", JScalar.jstr "oops")]
               else none) "d" = some [("dimension", JScalar.jstr "oops")]) ∧
    ((onExecute (fun _ => Status.OK)
        (fun s => if s = "d" then some [("dimension", JScalar.jstr "oops")]
                  else none)
        (fun _ _ => Status.OK)
        (CreateHybridCollectionRequest.create "col" [("v", DataType.FLOAT_VECTOR)]
          [("v", [])] [("v", "d")] JVal.null)).status.code =
      SERVER_UNEXPECTED_ERROR) ∧
    ((onExecute (fun _ => Status.OK)
        (fun s => if s = "d" then some [("dimension", JScalar.jstr "oops")]
                  else none)
        (fun _ _ => Status.OK)
        (CreateHybridCollectionRequest.create "col" [("v", DataType.FLOAT_VECTOR)]
          [("v", [])] [("v", "d")] JVal.null)).engineCalls = []) := by
  exact ⟨by decide, by decide, by decide, by decide, by decide⟩

/-- C5 as amended: when every field name appears in both maps, every
index document's `name` value (if present) is a string, and every vector
field's parameter string parses to a document whose `dimension` value (if
present) is numeric, schema assembly succeeds and emits exactly one
`FieldSchema` per input field, in order, each being the spec-side schema
(field name, data-type code, serialised index document, index name from
the `name` key when present, raw parameter string). -/
theorem c5_totality_amended (cn : String) (fip : List (String × JDoc))
    (fp : List (String × String)) (parse : String → Option JDoc)
    (l : List (String × DataType))
    (h : ∀ f ∈ l, fieldCfgOk fip fp parse f = true) :
    ∃ dim vp, buildFields cn fip fp parse l ([], 0, JVal.null) =
      Except.ok (l.map (specFieldSchema cn fip fp), dim, vp) := by
  obtain ⟨dim, vp, hb⟩ := buildFields_ok_of_cfg cn fip fp parse l ([], 0, JVal.null) h
  exact ⟨dim, vp, by simpa using hb⟩

/-- Witness for the amended C5 at a concrete scalar + vector request. -/
theorem c5_totality_amended_witness :
    ∃ dim vp,
      buildFields "c5w" [("a", [("name", JScalar.jstr "idx")]), ("v", [])]
        [("a", "ap"), ("v", "vp")]
        (fun s => if s = "vp" then some [("dimension", JScalar.jint 16)] else none)
        [("a", DataType.INT64), ("v", DataType.BINARY_VECTOR)]
        ([], 0, JVal.null) =
      Except.ok
        ([("a", DataType.INT64), ("v", DataType.BINARY_VECTOR)].map
          (specFieldSchema "c5w" [("a", [("name", JScalar.jstr "idx")]), ("v", [])]
            [("a", "ap"), ("v", "vp")]), dim, vp) :=
  c5_totality_amended "c5w" [("a", [("name", JScalar.jstr "idx")]), ("v", [])]
    [("a", "ap"), ("v", "vp")]
    (fun s => if s = "vp" then some [("dimension", JScalar.jint 16)] else none)
    [("a", DataType.INT64), ("v", DataType.BINARY_VECTOR)] (by decide)

/-- C6: (1) a request with exactly one vector field whose document carries
dimension 128, metric "L2" and index "IVF_FLAT" reaches the engine with
dimension 128 and the codes taken from the two fixed tables; (2) a request
with zero vector fields reaches the engine with dimension 0 and both codes
unset, and an otherwise-valid request still succeeds. -/
theorem c6_vector_derivation :
    (∀ (validator : String → Status) (parse : String → Option JDoc)
       (engine : CollectionSchema → List FieldSchema → Status)
       (cn fname s : String) (idoc : JDoc) (ep : JVal) (D : JDoc),
      (validator cn).code = 0 →
      nameValOk idoc = true →
      parse s = some D →
      D.lookup "dimension" = some (JScalar.jint 128) →
      D.lookup "metric_type" = some (JScalar.jstr "L2") →
      D.lookup "index_type" = some (JScalar.jstr "IVF_FLAT") →
      ∃ fields,
        (onExecute validator parse engine
          (CreateHybridCollectionRequest.create cn
            [(fname, DataType.FLOAT_VECTOR)] [(fname, idoc)] [(fname, s)]
            ep)).engineCalls =
          [({ collection_id_ := cn, dimension_ := 128
              index_file_size_ := none
              metric_type_ := s_map_metric_type.lookup "L2"
              engine_type_ := s_map_engine_type.lookup "IVF_FLAT" }, fields)] ∧
        ((engine { collection_id_ := cn, dimension_ := 128
                   index_file_size_ := none
                   metric_type_ := s_map_metric_type.lookup "L2"
                   engine_type_ := s_map_engine_type.lookup "IVF_FLAT" }
            fields).code = 0 →
          (onExecute validator parse engine
            (CreateHybridCollectionRequest.create cn
              [(fname, DataType.FLOAT_VECTOR)] [(fname, idoc)] [(fname, s)]
              ep)).status = Status.OK)) ∧
    (∀ (validator : String → Status) (parse : String → Option JDoc)
       (engine : CollectionSchema → List FieldSchema → Status)
       (cn : String) (fts : List (String × DataType))
       (fip : List (String × JDoc)) (fp : List (String × String)) (ep : JVal),
      (validator cn).code = 0 →
      (∀ f ∈ fts, isVector f.2 = false) →
      (∀ f ∈ fts, fieldCfgOk fip fp parse f = true) →
      ∃ fields,
        (onExecute validator parse engine
          (CreateHybridCollectionRequest.create cn fts fip fp ep)).engineCalls =
          [({ collection_id_ := cn }, fields)] ∧
        ((engine { collection_id_ := cn } fields).code = 0 →
          (onExecute validator parse engine
            (CreateHybridCollectionRequest.create cn fts fip fp ep)).status =
            Status.OK)) := by
  constructor
  · intro validator parse engine cn fname s idoc ep D hv hn hp hdim hmet hidx
    have hb : buildFields cn [(fname, idoc)] [(fname, s)] parse
        [(fname, DataType.FLOAT_VECTOR)] ([], 0, JVal.null) =
        Except.ok ([{ collection_id_ := cn, field_name_ := fname
                      field_type_ := dataTypeCode DataType.FLOAT_VECTOR
                      index_name_ := specIndexName idoc
                      index_param_ := dumpDoc idoc
                      field_params_ := s }], 128, JVal.obj D) := by
      simp only [buildFields, processField, List.lookup, beq_self_eq_true,
        indexNameOf_ok_of idoc hn, hp, hdim, getU16, isVector]
      norm_num
      rfl
    have hl2 : s_map_metric_type.lookup "L2" = some 1 := by decide
    have hl3 : s_map_engine_type.lookup "IVF_FLAT" = some 2 := by decide
    have h2 : applyMetricType (JVal.obj D)
        { collection_id_ := cn, dimension_ := 128 } =
        Except.ok { collection_id_ := cn, dimension_ := 128
                    metric_type_ := some 1 } := by
      simp [applyMetricType, jget, hmet, asString, tableAt, hl2]
    have h3 : applyEngineType (JVal.obj D)
        { collection_id_ := cn, dimension_ := 128, metric_type_ := some 1 } =
        Except.ok { collection_id_ := cn, dimension_ := 128
                    metric_type_ := some 1, engine_type_ := some 2 } := by
      simp [applyEngineType, jget, hidx, asString, tableAt, hl3]
    have hr := runPipeline_inr_of validator parse
      (CreateHybridCollectionRequest.create cn [(fname, DataType.FLOAT_VECTOR)]
        [(fname, idoc)] [(fname, s)] ep)
      [{ collection_id_ := cn, field_name_ := fname
         field_type_ := dataTypeCode DataType.FLOAT_VECTOR
         index_name_ := specIndexName idoc
         index_param_ := dumpDoc idoc
         field_params_ := s }]
      128 (JVal.obj D)
      { collection_id_ := cn, dimension_ := 128 }
      { collection_id_ := cn, dimension_ := 128, metric_type_ := some 1 }
      { collection_id_ := cn, dimension_ := 128, metric_type_ := some 1
        engine_type_ := some 2 }
      hv hb (applySegmentSize_null _) h2 h3
    have hcall := onExecute_of_inr validator parse engine
      (CreateHybridCollectionRequest.create cn [(fname, DataType.FLOAT_VECTOR)]
        [(fname, idoc)] [(fname, s)] ep) _ _ hr
    refine ⟨[{ collection_id_ := cn, field_name_ := fname
               field_type_ := dataTypeCode DataType.FLOAT_VECTOR
               index_name_ := specIndexName idoc
               index_param_ := dumpDoc idoc
               field_params_ := s }], ?_, ?_⟩
    · rw [hcall, hl2, hl3]
    · intro hcode
      rw [hcall]
      rw [hl2, hl3] at hcode
      simp [mapEngineStatus, hcode]
  · intro validator parse engine cn fts fip fp ep hv hnv hcfg
    obtain ⟨dim, vp, hb⟩ :=
      buildFields_ok_of_cfg cn fip fp parse fts ([], 0, JVal.null) hcfg
    have hstate := buildFields_no_vector_state cn fip fp parse fts
      ([], 0, JVal.null)
      (([] : List FieldSchema) ++ fts.map (specFieldSchema cn fip fp), dim, vp)
      hnv hb
    simp only [Prod.mk.injEq] at hstate
    obtain ⟨hdim, hvp⟩ := hstate
    subst hdim
    subst hvp
    have hr := runPipeline_inr_of validator parse
      (CreateHybridCollectionRequest.create cn fts fip fp ep)
      (fts.map (specFieldSchema cn fip fp)) 0 JVal.null
      { collection_id_ := cn } { collection_id_ := cn } { collection_id_ := cn }
      hv hb (applySegmentSize_null _) (applyMetricType_null _)
      (applyEngineType_null _)
    have hcall := onExecute_of_inr validator parse engine
      (CreateHybridCollectionRequest.create cn fts fip fp ep) _ _ hr
    refine ⟨fts.map (specFieldSchema cn fip fp), ?_, ?_⟩
    · rw [hcall]
    · intro hcode
      rw [hcall]
      simp [mapEngineStatus, hcode]

/-- Witness for C6: both parts applied at concrete requests. -/
theorem c6_vector_derivation_witness :
    (∃ fields,
      (onExecute (fun _ => Status.OK)
        (fun s => if s = "P"
          then some [("dimension", JScalar.jint 128),
                     ("metric_type", JScalar.jstr "L2"),
                     ("index_type", JScalar.jstr "IVF_FLAT")]
          else none)
        (fun _ _ => Status.OK)
        (CreateHybridCollectionRequest.create "c6a"
          [("v", DataType.FLOAT_VECTOR)] [("v", [])] [("v", "P")]
          JVal.null)).engineCalls =
        [({ collection_id_ := "c6a", dimension_ := 128
            index_file_size_ := none
            metric_type_ := s_map_metric_type.lookup "L2"
            engine_type_ := s_map_engine_type.lookup "IVF_FLAT" }, fields)] ∧
      (((fun _ _ => Status.OK : CollectionSchema → List FieldSchema → Status)
          { collection_id_ := "c6a", dimension_ := 128
            index_file_size_ := none
            metric_type_ := s_map_metric_type.lookup "L2"
            engine_type_ := s_map_engine_type.lookup "IVF_FLAT" }
          fields).code = 0 →
        (onExecute (fun _ => Status.OK)
          (fun s => if s = "P"
            then some [("dimension", JScalar.jint 128),
                       ("metric_type", JScalar.jstr "L2"),
                       ("index_type", JScalar.jstr "IVF_FLAT")]
            else none)
          (fun _ _ => Status.OK)
          (CreateHybridCollectionRequest.create "c6a"
            [("v", DataType.FLOAT_VECTOR)] [("v", [])] [("v", "P")]
            JVal.null)).status = Status.OK)) ∧
    (∃ fields,
      (onExecute (fun _ => Status.OK) (fun _ => none) (fun _ _ => Status.OK)
        (CreateHybridCollectionRequest.create "c6b" [("a", DataType.INT64)]
          [("a", [])] [("a", "x")] JVal.null)).engineCalls =
        [({ collection_id_ := "c6b" }, fields)] ∧
      (((fun _ _ => Status.OK : CollectionSchema → List FieldSchema → Status)
          { collection_id_ := "c6b" } fields).code = 0 →
        (onExecute (fun _ => Status.OK) (fun _ => none) (fun _ _ => Status.OK)
          (CreateHybridCollectionRequest.create "c6b" [("a", DataType.INT64)]
            [("a", [])] [("a", "x")] JVal.null)).status = Status.OK)) :=
  ⟨c6_vector_derivation.1 (fun _ => Status.OK)
      (fun s => if s = "P"
        then some [("dimension", JScalar.jint 128),
                   ("metric_type", JScalar.jstr "L2"),
                   ("index_type", JScalar.jstr "IVF_FLAT")]
        else none)
      (fun _ _ => Status.OK) "c6a" "v" "P" [] JVal.null
      [("dimension", JScalar.jint 128), ("metric_type", JScalar.jstr "L2"),
       ("index_type", JScalar.jstr "IVF_FLAT")]
      (by decide) (by decide) (by decide) (by decide) (by decide) (by decide),
   c6_vector_derivation.2 (fun _ => Status.OK) (fun _ => none)
      (fun _ _ => Status.OK) "c6b" [("a", DataType.INT64)] [("a", [])]
      [("a", "x")] JVal.null (by decide) (by decide) (by decide)⟩

/-- C7 counterexample: with two vector fields where only the earlier one
carries a `dimension` key, the schema reaching the engine takes its
dimension (64) from the earlier field while the metric code comes from the
last one - the last-visited vector field does not determine all three
attributes. -/
theorem c7_counterexample :
    ((fun s => if s = "A" then some [("dimension", JScalar.jint 64)]
               else if s = "B" then some [("metric_type", JScalar.jstr "L2")]
               else none) "B" = some [("metric_type", JScalar.jstr "L2")]) ∧
    (([("metric_type", JScalar.jstr "L2")] : JDoc).lookup "dimension" = none) ∧
    ((onExecute (fun _ => Status.OK)
        (fun s => if s = "A" then some [("dimension", JScalar.jint 64)]
                  else if s = "B" then some [("metric_type", JScalar.jstr "L2")]
                  else none)
        (fun _ _ => Status.OK)
        (CreateHybridCollectionRequest.create "col"
          [("a", DataType.FLOAT_VECTOR), ("b", DataType.FLOAT_VECTOR)]
          [("a", []), ("b", [])] [("a", "A"), ("b", "B")]
          JVal.null)).engineCalls.map (fun c => c.1.dimension_) = [64]) ∧
    ((onExecute (fun _ => Status.OK)
        (fun s => if s = "A" then some [("dimension", JScalar.jint 64)]
                  else if s = "B" then some [("metric_type", JScalar.jstr "L2")]
                  else none)
        (fun _ _ => Status.OK)
        (CreateHybridCollectionRequest.create "col"
          [("a", DataType.FLOAT_VECTOR), ("b", DataType.FLOAT_VECTOR)]
          [("a", []), ("b", [])] [("a", "A"), ("b", "B")]
          JVal.null)).engineCalls.map (fun c => c.1.metric_type_) = [some 1]) := by
  exact ⟨by decide, by decide, by decide, by decide⟩

/-- C7 as amended: the vector field visited last determines the metric and
engine codes (its parsed document alone is consulted), and it determines
the dimension exactly when its document carries a `dimension` key;
otherwise the dimension produced by the earlier fields persists. -/
theorem c7_last_wins_amended (validator : String → Status)
    (parse : String → Option JDoc) (req : CreateHybridCollectionRequest)
    (ci : CollectionSchema) (fields : List FieldSchema)
    (l1 l2 : List (String × DataType)) (name : String) (dt : DataType)
    (s : String) (doc : JDoc)
    (hsplit : req.field_types_ = l1 ++ (name, dt) :: l2)
    (hvec : isVector dt = true)
    (hl2 : ∀ f ∈ l2, isVector f.2 = false)
    (hs : req.field_params_.lookup name = some s)
    (hp : parse s = some doc)
    (hr : runPipeline validator parse req = Except.ok (Sum.inr (ci, fields))) :
    (doc.lookup "metric_type" = none → ci.metric_type_ = none) ∧
    (∀ str, doc.lookup "metric_type" = some (JScalar.jstr str) →
      ci.metric_type_ = s_map_metric_type.lookup str) ∧
    (doc.lookup "index_type" = none → ci.engine_type_ = none) ∧
    (∀ str, doc.lookup "index_type" = some (JScalar.jstr str) →
      ci.engine_type_ = s_map_engine_type.lookup str) ∧
    (∀ n, doc.lookup "dimension" = some (JScalar.jint n) →
      ci.dimension_ = (n % 65536).toNat) ∧
    (doc.lookup "dimension" = none →
      ∀ fPrev dimPrev vpPrev,
        buildFields req.collection_name_ req.field_index_params_
          req.field_params_ parse l1 ([], 0, JVal.null) =
          Except.ok (fPrev, dimPrev, vpPrev) →
        ci.dimension_ = dimPrev) := by
  obtain ⟨hv, dim, vp, ci1, ci2, hb, h1, h2, h3⟩ :=
    runPipeline_inr_shape validator parse req ci fields hr
  rw [hsplit, buildFields_append req.collection_name_ req.field_index_params_
    req.field_params_ parse l1 ((name, dt) :: l2) ([], 0, JVal.null)] at hb
  cases hA : buildFields req.collection_name_ req.field_index_params_
      req.field_params_ parse l1 ([], 0, JVal.null) with
  | error e => rw [hA] at hb; cases hb
  | ok stA =>
    rw [hA] at hb
    simp only [buildFields] at hb
    cases hB : processField req.collection_name_ req.field_index_params_
        req.field_params_ parse stA (name, dt) with
    | error e => rw [hB] at hb; cases hb
    | ok stB =>
      rw [hB] at hb
      have hstate := buildFields_no_vector_state req.collection_name_
        req.field_index_params_ req.field_params_ parse l2 stB
        (fields, dim, vp) hl2 hb
      have hdim_eq : dim = stB.2.1 := congrArg Prod.fst hstate
      have hvp_eq : vp = stB.2.2 := congrArg Prod.snd hstate
      obtain ⟨d0, iname, s0, hd0, hi0, hs0, hfst, hbr⟩ :=
        processField_ok_shape req.collection_name_ req.field_index_params_
          req.field_params_ parse stA stB (name, dt) hB
      simp only [] at hs0
      rw [hs] at hs0
      cases hs0
      rcases hbr with ⟨hnv, _⟩ | ⟨_, doc0, hp0, hvpb, hdimb⟩
      · rw [hvec] at hnv; cases hnv
      · rw [hp] at hp0
        cases hp0
        obtain ⟨_, d1, m1, e1⟩ := applySegmentSize_ok_shape _ _ _ h1
        obtain ⟨_, d2, _, e2, hm2⟩ := applyMetricType_ok_shape _ _ _ h2
        obtain ⟨_, d3, _, m3, he3⟩ := applyEngineType_ok_shape _ _ _ h3
        have hjget : jget vp "metric_type" = doc.lookup "metric_type" := by
          rw [hvp_eq, hvpb]
          rfl
        have hjget2 : jget vp "index_type" = doc.lookup "index_type" := by
          rw [hvp_eq, hvpb]
          rfl
        have hcidim : ci.dimension_ = dim := by rw [d3, d2, d1]
        refine ⟨?_, ?_, ?_, ?_, ?_, ?_⟩
        · intro hnone
          rcases hm2 with ⟨_, hmp⟩ | ⟨str', c, hjs, _, _⟩
          · rw [m3, hmp, m1]
          · rw [hjget, hnone] at hjs; cases hjs
        · intro str hsome
          rcases hm2 with ⟨hjn, _⟩ | ⟨str', c, hjs, hlk, hmset⟩
          · rw [hjget, hsome] at hjn; cases hjn
          · rw [hjget, hsome] at hjs
            injection hjs with hjs'
            injection hjs' with hstr
            subst hstr
            rw [m3, hmset, hlk]
        · intro hnone
          rcases he3 with ⟨_, hep⟩ | ⟨str', c, hjs, _, _⟩
          · rw [hep, e2, e1]
          · rw [hjget2, hnone] at hjs; cases hjs
        · intro str hsome
          rcases he3 with ⟨hjn, _⟩ | ⟨str', c, hjs, hlk, heset⟩
          · rw [hjget2, hsome] at hjn; cases hjn
          · rw [hjget2, hsome] at hjs
            injection hjs with hjs'
            injection hjs' with hstr
            subst hstr
            rw [heset, hlk]
        · intro n hsome
          rcases hdimb with ⟨hdn, _⟩ | ⟨v, n', hdv, hgu, hsb⟩
          · rw [hsome] at hdn; cases hdn
          · rw [hsome] at hdv
            injection hdv with hdv'
            subst hdv'
            unfold getU16 at hgu
            injection hgu with hgu'
            rw [hcidim, hdim_eq, hsb, ← hgu']
        · intro hnone fPrev dimPrev vpPrev hprev
          injection hprev with hprev'
          rcases hdimb with ⟨_, hsb⟩ | ⟨v, n', hdv, _, _⟩
          · rw [hcidim, hdim_eq, hsb, hprev']
          · rw [hnone] at hdv; cases hdv

/-- Witness for the amended C7: a last vector field carrying all three
keys determines the schema's dimension. -/
theorem c7_last_wins_amended_witness :
    ({ collection_id_ := "c7w", dimension_ := 16, index_file_size_ := none
       metric_type_ := some 2
       engine_type_ := some 1 } : CollectionSchema).dimension_ =
      ((16 : Int) % 65536).toNat :=
  (c7_last_wins_amended (fun _ => Status.OK)
    (fun s => if s = "A" then some [("dimension", JScalar.jint 32)]
              else if s = "B"
              then some [("dimension", JScalar.jint 16),
                         ("metric_type", JScalar.jstr "IP"),
                         ("index_type", JScalar.jstr "FLAT")]
              else none)
    (CreateHybridCollectionRequest.create "c7w"
      [("a", DataType.FLOAT_VECTOR), ("b", DataType.FLOAT_VECTOR)]
      [("a", []), ("b", [])] [("a", "A"), ("b", "B")] JVal.null)
    { collection_id_ := "c7w", dimension_ := 16, index_file_size_ := none
      metric_type_ := some 2, engine_type_ := some 1 }
    [{ collection_id_ := "c7w", field_name_ := "a", field_type_ := 100
       index_name_ := none, index_param_ := "\x7b\x7d", field_params_ := "A" },
     { collection_id_ := "c7w", field_name_ := "b", field_type_ := 100
       index_name_ := none, index_param_ := "\x7b\x7d", field_params_ := "B" }]
    [("a", DataType.FLOAT_VECTOR)] [] "b" DataType.FLOAT_VECTOR "B"
    [("dimension", JScalar.jint 16), ("metric_type", JScalar.jstr "IP"),
     ("index_type", JScalar.jstr "FLAT")]
    rfl (by decide) (by decide) (by decide) rfl rfl).2.2.2.2.1 16 (by decide)

/-- C10 (implicit): a vector field whose document parses without a
`dimension` key leaves the running dimension unchanged - in particular,
when no vector field's document carries the key the schema reaches the
engine with dimension 0, while the metric and engine codes can still be
set from the last-seen vector document. -/
theorem c10_dimension_key_absent :
    (∀ (validator : String → Status) (parse : String → Option JDoc)
       (engine : CollectionSchema → List FieldSchema → Status)
       (req : CreateHybridCollectionRequest) (ci : CollectionSchema)
       (fields : List FieldSchema),
      (onExecute validator parse engine req).engineCalls = [(ci, fields)] →
      (∀ name dt s doc, (name, dt) ∈ req.field_types_ → isVector dt = true →
        req.field_params_.lookup name = some s → parse s = some doc →
        doc.lookup "dimension" = none) →
      ci.dimension_ = 0) ∧
    ((onExecute (fun _ => Status.OK)
        (fun s => if s = "q"
          then some [("metric_type", JScalar.jstr "L2"),
                     ("index_type", JScalar.jstr "IVF_FLAT")]
          else none)
        (fun _ _ => Status.OK)
        (CreateHybridCollectionRequest.create "c10"
          [("v", DataType.FLOAT_VECTOR)] [("v", [])] [("v", "q")]
          JVal.null)).engineCalls.map
        (fun c => (c.1.dimension_, c.1.metric_type_, c.1.engine_type_)) =
      [(0, s_map_metric_type.lookup "L2", s_map_engine_type.lookup "IVF_FLAT")]) := by
  constructor
  · intro validator parse engine req ci fields h hnd
    have hr := onExecute_calls_inr validator parse engine req ci fields h
    obtain ⟨dim, vp, hb, hcd, _⟩ :=
      pipeline_schema_shape validator parse req ci fields hr
    have hdim := buildFields_dim_unchanged req.collection_name_
      req.field_index_params_ req.field_params_ parse req.field_types_
      ([], 0, JVal.null) (fields, dim, vp) hnd hb
    rw [hcd]
    exact hdim
  · decide

/-- Witness for C10 at a concrete vector-only request whose document
lacks a `dimension` key. -/
theorem c10_dimension_key_absent_witness :
    ({ collection_id_ := "c10w", dimension_ := 0, index_file_size_ := none
       metric_type_ := some 1
       engine_type_ := some 2 } : CollectionSchema).dimension_ = 0 :=
  c10_dimension_key_absent.1 (fun _ => Status.OK)
    (fun s => if s = "q"
      then some [("metric_type", JScalar.jstr "L2"),
                 ("index_type", JScalar.jstr "IVF_FLAT")]
      else none)
    (fun _ _ => Status.OK)
    (CreateHybridCollectionRequest.create "c10w"
      [("v", DataType.FLOAT_VECTOR)] [("v", [])] [("v", "q")] JVal.null)
    { collection_id_ := "c10w", dimension_ := 0, metric_type_ := some 1
      engine_type_ := some 2 }
    [{ collection_id_ := "c10w", field_name_ := "v", field_type_ := 100
       index_name_ := none, index_param_ := "\x7b\x7d", field_params_ := "q" }]
    (by decide)
    (by
      intro name dt s doc hmem hvec hlk hp
      simp only [CreateHybridCollectionRequest.create, List.mem_singleton,
        Prod.mk.injEq] at hmem
      obtain ⟨hn, hd⟩ := hmem
      subst hn
      subst hd
      have h0 : List.lookup "v"
          ((CreateHybridCollectionRequest.create "c10w"
            [("v", DataType.FLOAT_VECTOR)] [("v", [])] [("v", "q")]
            JVal.null).field_params_) = some "q" := by decide
      rw [h0] at hlk
      have hs := Option.some.inj hlk
      subst hs
      have hdoc := Option.some.inj hp
      rw [← hdoc]
      decide)
